import Mathlib

/-!
# Verification of the imgchat generation-job subsystem

Shallow embedding of the job store (`src/services/job-queue.ts`), the
provider registry and dispatcher (`src/providers/*`), the provider
adapters (`cloudflare.ts`, `radio.ts` alias `types.ts` part), and the
orchestration route (`src/routes/api.ts`, `POST /sessions/:id/generate`,
`GET /jobs/:id`, `GET /sessions/:id/jobs`).

Conventions of the embedding:
* ISO-8601 timestamps are represented by `Nat` (their ordering is all the
  code ever uses);
* a D1 table is a `List` of row structures; an SQL `UPDATE ... WHERE id = ?`
  is a `List.map` guarded by the `WHERE` predicate, `SELECT ... first()` is
  `List.find?`, `SELECT ... all()` is `List.filter` composed with the
  `ORDER BY` sort;
* a JavaScript string used as a binary carrier is represented by its list
  of char codes (`List Nat`); `String.fromCharCode`/`charCodeAt` are then
  the identity on codes, exactly as in the runtime;
* a `fetch`/`await` that may reject is driven by an explicit environment
  value recording, for each effectful step, whether it succeeds or throws;
  a thrown exception is `Except.error`.
-/

namespace ImgChat

/-- `JobStatus` from `src/providers/types.ts`:
`'pending' | 'processing' | 'completed' | 'failed'`. -/
inductive JobStatus where
  | pending
  | processing
  | completed
  | failed
deriving DecidableEq, Repr

/-- A status is terminal when it is `completed` or `failed`
(the condition tested by `updateJobStatus` when computing `completed_at`,
and by `cleanupOldJobs`). -/
def JobStatus.isTerminal : JobStatus → Bool
  | .completed => true
  | .failed => true
  | _ => false

/-- `GenerationParams` from `src/providers/types.ts`: the structured blob the
submission route serialises into the job row. -/
structure GenerationParams where
  width : Nat
  height : Nat
  steps : Nat
  guidance : Nat
  negativePrompt : Option String
  images : Option (List String)
deriving DecidableEq, Repr

/-- Row of the `generation_jobs` D1 table (interface `GenerationJob` in
`src/providers/types.ts`).  The `params` TEXT column holds
`JSON.stringify` output that nothing in this subsystem parses back, so it
is represented by the structured value itself. -/
structure GenerationJob where
  id : String
  session_id : String
  message_id : String
  user_id : String
  status : JobStatus
  model : String
  provider : String
  prompt : String
  params : GenerationParams
  error_message : Option String
  attempts : Nat
  created_at : Nat
  updated_at : Nat
  completed_at : Option Nat
deriving DecidableEq, Repr

/-- Row of the `messages` table as read by the polling route
(`SELECT id, prompt, image_path, x_url, is_edit, generation_time_ms,
archived, created_at FROM messages`). -/
structure Message where
  id : String
  session_id : String
  prompt : String
  image_path : Option String
  x_url : Option String
  is_edit : Bool
  generation_time_ms : Option Nat
  created_at : Nat
deriving DecidableEq, Repr

/-! ## Job store (`src/services/job-queue.ts`) -/
/-- `updateJobStatus(db, jobId, status, errorMessage?)`:

```
UPDATE generation_jobs
SET status = ?, error_message = ?, updated_at = ?, completed_at = ?
WHERE id = ?
```

with `completed_at = (status === 'completed' || status === 'failed') ? now : null`
and the bound error message `errorMessage || null` (so the empty string is
coerced to `null`, as `||` does on a falsy string). -/
def updateJobStatus (db : List GenerationJob) (jobId : String) (status : JobStatus)
    (errorMessage : Option String) (now : Nat) : List GenerationJob :=
  let completedAt : Option Nat := if status.isTerminal then some now else none
  let errMsg : Option String :=
    match errorMessage with
    | some s => if s = "" then none else some s
    | none => none
  db.map fun j =>
    if j.id = jobId then
      { j with status := status, error_message := errMsg,
               updated_at := now, completed_at := completedAt }
    else j

/-- `markJobProcessing(db, jobId)`:

```
UPDATE generation_jobs
SET status = 'processing', attempts = attempts + 1, updated_at = ?
WHERE id = ?
``` -/
def markJobProcessing (db : List GenerationJob) (jobId : String) (now : Nat) :
    List GenerationJob :=
  db.map fun j =>
    if j.id = jobId then
      { j with status := .processing, attempts := j.attempts + 1, updated_at := now }
    else j

/-- `getJob(db, jobId)`: `SELECT * FROM generation_jobs WHERE id = ?` with
`.first()`. -/
def getJob (db : List GenerationJob) (jobId : String) : Option GenerationJob :=
  db.find? fun j => j.id = jobId

/-- The `WHERE` predicate of `getSessionPendingJobs`:
`session_id = ? AND status IN ('pending', 'processing')`. -/
def sessionPendingPred (sessionId : String) (j : GenerationJob) : Bool :=
  j.session_id = sessionId && (j.status = .pending || j.status = .processing)

/-- The `WHERE` predicate of `getPendingJobs`:
`user_id = ? AND status IN ('pending', 'processing')`. -/
def userPendingPred (userId : String) (j : GenerationJob) : Bool :=
  j.user_id = userId && (j.status = .pending || j.status = .processing)

/-- Insertion step of the `ORDER BY created_at ASC` sort. -/
def insertByCreated (j : GenerationJob) : List GenerationJob → List GenerationJob
  | [] => [j]
  | k :: rest =>
      if j.created_at ≤ k.created_at then j :: k :: rest
      else k :: insertByCreated j rest

/-- `ORDER BY created_at ASC` over a result set. -/
def sortByCreated : List GenerationJob → List GenerationJob
  | [] => []
  | j :: rest => insertByCreated j (sortByCreated rest)

/-- `getSessionPendingJobs(db, sessionId)`:
`SELECT * FROM generation_jobs WHERE session_id = ? AND status IN
('pending','processing') ORDER BY created_at ASC`. -/
def getSessionPendingJobs (db : List GenerationJob) (sessionId : String) :
    List GenerationJob :=
  sortByCreated (db.filter (sessionPendingPred sessionId))

/-- `getPendingJobs(db, userId)`:
`SELECT * FROM generation_jobs WHERE user_id = ? AND status IN
('pending','processing') ORDER BY created_at ASC`. -/
def getPendingJobs (db : List GenerationJob) (userId : String) :
    List GenerationJob :=
  sortByCreated (db.filter (userPendingPred userId))

/-- Ascending order on `created_at`. -/
def createdLe (a b : GenerationJob) : Prop := a.created_at ≤ b.created_at

/-! ## Polling route `GET /api/jobs/:id` (`src/routes/api.ts` 585-605) -/
/-- Response shape of `GET /api/jobs/:id`: either a 404, `{job}`, or
`{job, message}` when the job is completed. -/
inductive JobStatusResponse where
  | notFound
  | jobOnly (job : GenerationJob)
  | jobWithMessage (job : GenerationJob) (message : Option Message)
deriving DecidableEq, Repr

/-- Handler of `GET /api/jobs/:id`: fetch the job, 404 when it is missing
or owned by a different user, and join the message row when completed. -/
def getJobRoute (db : List GenerationJob) (messages : List Message)
    (userId jobId : String) : JobStatusResponse :=
  match getJob db jobId with
  | none => .notFound
  | some job =>
      if job.user_id ≠ userId then .notFound
      else if job.status = .completed then
        .jobWithMessage job (messages.find? fun m => m.id = job.message_id)
      else .jobOnly job

/-! ## Sample rows used by concrete witnesses and counterexamples -/
/-- A job already in the terminal state `completed`. -/
def sampleCompletedJob : GenerationJob :=
  { id := "j1", session_id := "s1", message_id := "j1", user_id := "u1",
    status := .completed, model := "cf-flux-dev", provider := "cloudflare",
    prompt := "a cat",
    params := { width := 512, height := 512, steps := 4, guidance := 2,
                negativePrompt := none, images := none },
    error_message := none,
    attempts := 1, created_at := 0, updated_at := 1, completed_at := some 1 }

/-- A job still pending. -/
def samplePendingJob : GenerationJob :=
  { id := "j2", session_id := "s1", message_id := "j2", user_id := "u1",
    status := .pending, model := "flux2klein", provider := "radio",
    prompt := "a dog",
    params := { width := 512, height := 512, steps := 4, guidance := 2,
                negativePrompt := none, images := none },
    error_message := none,
    attempts := 0, created_at := 5, updated_at := 5, completed_at := none }

/-! ## Provider registry (`src/providers/registry.ts`) -/
/-- `ModelCapabilities` from `src/providers/types.ts`. -/
structure ModelCapabilities where
  supportsEditing : Bool
  maxWidth : Nat
  maxHeight : Nat
deriving DecidableEq, Repr

/-- `ModelMetadata` from `src/providers/types.ts`. -/
structure ModelMetadata where
  id : String
  name : String
  provider : String
  providerIcon : String
  cfModelId : Option String
  capabilities : ModelCapabilities
deriving DecidableEq, Repr

/-- The `MODEL_REGISTRY` constant of `src/providers/registry.ts`, as the
association list of its six entries in declaration order. -/
def MODEL_REGISTRY : List (String × ModelMetadata) :=
  [ ("flux2klein",
     { id := "flux2klein", name := "Flux Klein 4B", provider := "radio",
       providerIcon := "radio", cfModelId := none,
       capabilities := { supportsEditing := true, maxWidth := 2048, maxHeight := 2048 } }),
    ("flux2klein-9b",
     { id := "flux2klein-9b", name := "Flux Klein 9B", provider := "radio",
       providerIcon := "radio", cfModelId := none,
       capabilities := { supportsEditing := true, maxWidth := 2048, maxHeight := 2048 } }),
    ("zimage-turbo",
     { id := "zimage-turbo", name := "ZImage Turbo", provider := "radio",
       providerIcon := "radio", cfModelId := none,
       capabilities := { supportsEditing := true, maxWidth := 2048, maxHeight := 2048 } }),
    ("cf-flux-klein-4b",
     { id := "cf-flux-klein-4b", name := "CF Flux Klein 4B", provider := "cloudflare",
       providerIcon := "cloud", cfModelId := some "@cf/black-forest-labs/flux-2-klein-4b",
       capabilities := { supportsEditing := true, maxWidth := 1024, maxHeight := 1024 } }),
    ("cf-flux-klein-9b",
     { id := "cf-flux-klein-9b", name := "CF Flux Klein 9B", provider := "cloudflare",
       providerIcon := "cloud", cfModelId := some "@cf/black-forest-labs/flux-2-klein-9b",
       capabilities := { supportsEditing := true, maxWidth := 1024, maxHeight := 1024 } }),
    ("cf-flux-dev",
     { id := "cf-flux-dev", name := "CF Flux Dev", provider := "cloudflare",
       providerIcon := "cloud", cfModelId := some "@cf/black-forest-labs/flux-2-dev",
       capabilities := { supportsEditing := true, maxWidth := 1024, maxHeight := 1024 } }) ]

/-- `getModelMetadata(modelId)` = `MODEL_REGISTRY[modelId]`, written over an
explicit registry value so that the handler's (lack of) dependence on the
capability flags can be stated; the source function is the instance at
`MODEL_REGISTRY`. -/
def getModelMetadataIn (registry : List (String × ModelMetadata))
    (modelId : String) : Option ModelMetadata :=
  (registry.find? fun p => p.1 = modelId).map Prod.snd

/-- `getModelMetadata` of `src/providers/registry.ts`. -/
def getModelMetadata (modelId : String) : Option ModelMetadata :=
  getModelMetadataIn MODEL_REGISTRY modelId

/-! ## Dispatcher (`src/providers/factory.ts`, adapter `supportsModel`) -/
/-- The two adapter kinds (`providerType` fields of `CloudflareProvider`
and `RadioProvider`). -/
inductive ProviderKind where
  | cloudflare
  | radio
deriving DecidableEq, Repr

/-- `CLOUDFLARE_MODELS` from `src/providers/cloudflare.ts`. -/
def CLOUDFLARE_MODELS : List String :=
  ["cf-flux-klein-4b", "cf-flux-klein-9b", "cf-flux-dev"]

/-- `RADIO_MODELS` from `src/providers/radio.ts`. -/
def RADIO_MODELS : List String :=
  ["flux2klein", "flux2klein-9b", "zimage-turbo"]

/-- `supportsModel` of each adapter: membership in its hardcoded id list. -/
def supportsModel : ProviderKind → String → Bool
  | .cloudflare, m => CLOUDFLARE_MODELS.contains m
  | .radio, m => RADIO_MODELS.contains m

/-- The `providers` array of `src/providers/factory.ts` in registration
order. -/
def providers : List ProviderKind := [.cloudflare, .radio]

/-- `getProviderForModel(modelId)`: first registered adapter whose
`supportsModel` matches. -/
def getProviderForModel (modelId : String) : Option ProviderKind :=
  providers.find? fun p => supportsModel p modelId

/-- `modelRequiresApiKey(modelId)`: the model's registry entry names the
`radio` provider, over an explicit registry value. -/
def modelRequiresApiKeyIn (registry : List (String × ModelMetadata))
    (modelId : String) : Bool :=
  match getModelMetadataIn registry modelId with
  | some m => m.provider = "radio"
  | none => false

/-! ## Submission route `POST /api/sessions/:id/generate`
(`src/routes/api.ts` 611-851, validation and job creation) -/
/-- Row of the `sessions` table as the ownership check reads it. -/
structure SessionRow where
  id : String
  user_id : String
deriving DecidableEq, Repr

/-- Request body of the generate route. -/
structure GenerateBody where
  prompt : String
  model : String
  width : Nat
  height : Nat
  steps : Nat
  guidance : Nat
  negativePrompt : Option String
  images : Option (List String)
deriving DecidableEq, Repr

/-- Synchronous outcome of the generate route's validation phase: one of the
4xx error bodies, or 202 with the created job. -/
inductive GenerateResult where
  | sessionNotFound
  | unknownModel
  | noProvider
  | apiKeyRequired
  | accepted (job : GenerationJob)
deriving DecidableEq, Repr

/-- The `!prefs?.api_key` test of the route: the preferences row exists and
carries a truthy (non-null, non-empty) `api_key`. -/
def apiKeyUsable (prefs : List (String × Option String)) (userId : String) :
    Bool :=
  match (prefs.find? fun p => p.1 = userId).bind Prod.snd with
  | some s => s ≠ ""
  | none => false

/-- `createJob(db, params)` of `src/services/job-queue.ts`: the INSERT of a
fresh `pending` row keyed by the message id, returning the record. -/
def createJob (jobs : List GenerationJob) (sessionId messageId userId : String)
    (model provider prompt : String) (params : GenerationParams) (now : Nat) :
    GenerationJob × List GenerationJob :=
  let job : GenerationJob :=
    { id := messageId, session_id := sessionId, message_id := messageId,
      user_id := userId, status := .pending, model := model,
      provider := provider, prompt := prompt, params := params,
      error_message := none, attempts := 0, created_at := now,
      updated_at := now, completed_at := none }
  (job, jobs ++ [job])

/-- Validation-and-persistence phase of `POST /api/sessions/:id/generate`:
verify session ownership, resolve the model in the registry, resolve the
adapter, check the stored API key for radio models, then (and only then)
insert the `pending` job.  Returns the synchronous result together with the
job table after the call. -/
def submitGenerate (registry : List (String × ModelMetadata))
    (sessions : List SessionRow) (prefs : List (String × Option String))
    (jobs : List GenerationJob) (userId sessionId : String)
    (body : GenerateBody) (messageId : String) (now : Nat) :
    GenerateResult × List GenerationJob :=
  match sessions.find? fun s => s.id = sessionId && s.user_id = userId with
  | none => (.sessionNotFound, jobs)
  | some _ =>
      match getModelMetadataIn registry body.model with
      | none => (.unknownModel, jobs)
      | some modelMeta =>
          match getProviderForModel body.model with
          | none => (.noProvider, jobs)
          | some _ =>
              if modelRequiresApiKeyIn registry body.model
                  && !apiKeyUsable prefs userId then
                (.apiKeyRequired, jobs)
              else
                let params : GenerationParams :=
                  { width := body.width, height := body.height,
                    steps := body.steps, guidance := body.guidance,
                    negativePrompt := body.negativePrompt,
                    images := body.images }
                let (job, jobs') := createJob jobs sessionId messageId userId
                  body.model modelMeta.provider body.prompt params now
                (.accepted job, jobs')

/-- A registry whose only model declares `supportsEditing: false`, under an
id the dispatcher's hardcoded lists recognise. -/
def nonEditingRegistry : List (String × ModelMetadata) :=
  [ ("cf-flux-dev",
     { id := "cf-flux-dev", name := "CF Flux Dev", provider := "cloudflare",
       providerIcon := "cloud", cfModelId := some "@cf/black-forest-labs/flux-2-dev",
       capabilities := { supportsEditing := false, maxWidth := 1024, maxHeight := 1024 } }) ]

/-- A submission carrying one reference image. -/
def editBody : GenerateBody :=
  { prompt := "make it night", model := "cf-flux-dev", width := 512,
    height := 512, steps := 4, guidance := 2, negativePrompt := none,
    images := some ["images/s1/prev.png"] }

/-! ## Chunked base64 binary transport

The encoder (`radio.ts` 195-204 and `api.ts` 705-712) walks the byte array
in windows of 8192 bytes, appends `String.fromCharCode(...chunk)` to an
accumulator string, and applies `btoa` to the result; the decoder
(`api.ts` 744-746 and the upload path) applies `atob` and reads each char
code back with `charCodeAt`.  A JavaScript binary string is represented
here by its list of char codes, which makes `String.fromCharCode` and
`charCodeAt` the identity on codes; `btoa`/`atob` are the standard base64
maps on those codes. -/
/-- The base64 alphabet in index order. -/
def b64Alphabet : List Char :=
  "ABCDEFGHIJKLMNOPQRSTUVWXYZabcdefghijklmnopqrstuvwxyz0123456789+/".toList

/-- Character of a sextet value. -/
def b64enc (n : Nat) : Char := b64Alphabet.getD n 'A'

/-- Sextet value of an alphabet character. -/
def b64val (c : Char) : Nat := b64Alphabet.indexOf c

/-- `btoa` on a binary string (given as char codes): 3 bytes to 4 alphabet
characters, with `=` padding for a 1- or 2-byte tail. -/
def btoa : List Nat → List Char
  | [] => []
  | [b1] => [b64enc (b1 / 4), b64enc (b1 % 4 * 16), '=', '=']
  | [b1, b2] =>
      [b64enc (b1 / 4), b64enc (b1 % 4 * 16 + b2 / 16), b64enc (b2 % 16 * 4), '=']
  | b1 :: b2 :: b3 :: rest =>
      b64enc (b1 / 4) :: b64enc (b1 % 4 * 16 + b2 / 16) ::
        b64enc (b2 % 16 * 4 + b3 / 64) :: b64enc (b3 % 64) :: btoa rest

/-- 4 sextet characters back to 3 bytes (2 or 3 characters to the 1- or
2-byte tail). -/
def decode4 : List Char → List Nat
  | c1 :: c2 :: c3 :: c4 :: rest =>
      (b64val c1 * 4 + b64val c2 / 16) ::
        (b64val c2 % 16 * 16 + b64val c3 / 4) ::
        (b64val c3 % 4 * 64 + b64val c4) :: decode4 rest
  | [c1, c2] => [b64val c1 * 4 + b64val c2 / 16]
  | [c1, c2, c3] =>
      [b64val c1 * 4 + b64val c2 / 16, b64val c2 % 16 * 16 + b64val c3 / 4]
  | _ => []

/-- `atob` composed with the per-character `charCodeAt` read-back: padding
characters carry no payload, the rest decode in groups of four. -/
def atob (cs : List Char) : List Nat :=
  decode4 (cs.filter fun c => c ≠ '=')

/-- The chunked accumulation loop: `binary += String.fromCharCode(...chunk)`
over windows of 8192 bytes.  On char codes this concatenates the chunks
back in order. -/
def chunkedFromCharCode (bytes : List Nat) : List Nat :=
  if h : bytes = [] then []
  else bytes.take 8192 ++ chunkedFromCharCode (bytes.drop 8192)
termination_by bytes.length
decreasing_by
  simp only [List.length_drop]
  have hpos : 0 < bytes.length := List.length_pos.mpr h
  omega

/-- The fixed-window encoder of `radio.ts`/`api.ts`. -/
def encodeChunkedBase64 (bytes : List Nat) : List Char :=
  btoa (chunkedFromCharCode bytes)

/-- The decoder of `api.ts`: `atob` plus `charCodeAt` per character. -/
def decodeBase64ToBytes (cs : List Char) : List Nat :=
  atob cs

/-! ## Provider adapters (`src/providers/radio.ts`, `cloudflare.ts`)

Each effectful `await` is driven by an oracle recorded in an environment
value: a `fetch`/`ai.run` outcome is `Except.error e` for a rejection of
the network stack (before any response) and `Except.ok r` for a received
response.  A thrown JavaScript exception is `Except.error` in the
function's result; a returned `GenerationResponse` is `Except.ok`. -/
/-- `GenerationRequest` from `src/providers/types.ts`.  `imageBase64`
payloads inside `images` stay abstract strings. -/
structure GenerationRequest where
  prompt : String
  model : String
  width : Nat
  height : Nat
  steps : Nat
  guidance : Nat
  negativePrompt : Option String
  images : Option (List String)
deriving DecidableEq, Repr

/-- `GenerationResponse` from `src/providers/types.ts`; the base64 text is
a char list as produced by the chunked encoder. -/
structure GenerationResponse where
  success : Bool
  imageBase64 : Option (List Char)
  xUrl : Option String
  error : Option String
deriving DecidableEq, Repr

/-- `ProviderContext`: the bearer credential and whether the Workers AI
binding is present. -/
structure ProviderContext where
  apiKey : Option String
  ai : Bool
deriving DecidableEq, Repr

/-- An HTTP response as the adapters consume it: `ok`/`status`, the error
body text, the parsed `url` field of an upload JSON body (`none` for a
malformed or url-less body), the image bytes of an `arrayBuffer()` read,
and the `X-Url` header. -/
structure HttpResponse where
  ok : Bool
  status : Nat
  bodyText : String
  jsonUrl : Option String
  bodyBytes : List Nat
  xUrl : Option String
deriving DecidableEq, Repr

/-- `img.startsWith('http')` — embedded as a take-4 comparison on char
codes because only this 4-character ASCII prefix test is ever used. -/
def startsWithHttp (s : String) : Bool :=
  s.toList.take 4 = "http".toList

/-- `uploadImageToRadio` (`radio.ts` 96-125) applied to the outcome of its
one `fetch`: a network fault propagates, a non-ok response THROWS
`Upload failed: <status> - <text>`, a body without a `url` field THROWS
`Upload did not return a URL`, otherwise the URL is returned.  (The base64
payload it posts is irrelevant to the oracle-driven outcome.) -/
def uploadImageToRadio (outcome : Except String HttpResponse) :
    Except String String :=
  match outcome with
  | .error e => .error e
  | .ok r =>
      if !r.ok then
        .error ("Upload failed: " ++ toString r.status ++ " - " ++ r.bodyText)
      else
        match r.jsonUrl with
        | none => .error "Upload did not return a URL"
        | some u => .ok u

/-- Oracle for one `RadioProvider.generate` run: the outcome of the `k`-th
upload call and of the image call. -/
structure RadioEnv where
  uploadAt : Nat → Except String HttpResponse
  image : Except String HttpResponse

/-- The two endpoints the radio adapter can call. -/
inductive RadioCall where
  | upload
  | image
deriving DecidableEq, Repr

/-- The reference-image loop of `RadioProvider.generate` (`radio.ts`
158-175): URLs pass through, anything else is uploaded (the `data:` prefix
stripping only changes the posted payload); the first upload failure
propagates as the exception of `uploadImageToRadio`.  Returns the outcome,
the endpoint calls made, and the next upload index. -/
def processImages (env : RadioEnv) :
    List String → Nat → Except String (List String) × List RadioCall × Nat
  | [], k => (.ok [], [], k)
  | img :: imgs, k =>
      if startsWithHttp img then
        ((processImages env imgs k).1.map fun us => img :: us,
         (processImages env imgs k).2.1, (processImages env imgs k).2.2)
      else
        match uploadImageToRadio (env.uploadAt k) with
        | .error e => (.error e, [.upload], k + 1)
        | .ok u =>
            ((processImages env imgs (k + 1)).1.map fun us => u :: us,
             .upload :: (processImages env imgs (k + 1)).2.1,
             (processImages env imgs (k + 1)).2.2)

/-- `RadioProvider.generate` (`radio.ts` 134-218): missing credential is a
failure outcome; for an edit request the reference images are resolved
first, OUTSIDE the try/catch, so an upload exception escapes `generate`;
then the image call runs inside try/catch — a network fault or non-ok
response maps to `{success:false, error}`, success carries the chunked
base64 of the body bytes and the `X-Url` header. -/
def radioGenerate (env : RadioEnv) (request : GenerationRequest)
    (context : ProviderContext) :
    Except String GenerationResponse × List RadioCall :=
  match context.apiKey with
  | none =>
      (.ok { success := false, imageBase64 := none, xUrl := none,
             error := some "API key not configured. Go to Settings." }, [])
  | some _ =>
      let isEdit := !(request.images.getD []).isEmpty
      let uploaded :=
        if isEdit then processImages env (request.images.getD []) 0
        else (.ok [], [], 0)
      match uploaded with
      | (.error e, calls, _) => (.error e, calls)
      | (.ok _, calls, _) =>
          match env.image with
          | .error e =>
              (.ok { success := false, imageBase64 := none, xUrl := none,
                     error := some e }, calls ++ [.image])
          | .ok r =>
              if !r.ok then
                (.ok { success := false, imageBase64 := none, xUrl := none,
                       error := some ("API error: " ++ toString r.status
                         ++ " - " ++ r.bodyText) }, calls ++ [.image])
              else
                (.ok { success := true,
                       imageBase64 := some (encodeChunkedBase64 r.bodyBytes),
                       xUrl := r.xUrl, error := none }, calls ++ [.image])

/-- Oracle for one `CloudflareProvider.generate` run: the `ai.run` outcome —
a thrown error, or a response whose optional `image` field carries base64
text. -/
structure CfEnv where
  run : Except String (Option (List Char))

/-- `CloudflareProvider.generate` (`cloudflare.ts` 294-346): missing
binding, unresolvable model and missing `image` field are failure
outcomes; the `ai.run` call sits inside try/catch, so a thrown error is
also mapped to a failure outcome — the function never throws. -/
def cloudflareGenerate (env : CfEnv) (request : GenerationRequest)
    (context : ProviderContext) : Except String GenerationResponse :=
  if !context.ai then
    .ok { success := false, imageBase64 := none, xUrl := none,
          error := some "Workers AI binding not available" }
  else
    match (getModelMetadata request.model).bind (fun m => m.cfModelId) with
    | none =>
        .ok { success := false, imageBase64 := none, xUrl := none,
              error := some ("Unknown Cloudflare model: " ++ request.model) }
    | some _ =>
        match env.run with
        | .error e =>
            .ok { success := false, imageBase64 := none, xUrl := none,
                  error := some e }
        | .ok none =>
            .ok { success := false, imageBase64 := none, xUrl := none,
                  error := some "No image returned from Cloudflare AI" }
        | .ok (some img) =>
            .ok { success := true, imageBase64 := some img, xUrl := none,
                  error := none }

/-! ## The detached execution (`generationPromise`, `api.ts` 688-822)

One job's background run, modelled as the ordered trace of its writes.
Each `await` either succeeds or throws, as the `ExecEnv` oracle decides;
a throw lands in the final `catch`, whose `updateJobStatus(..., 'failed')`
is the trace's closing write.  The fire-and-forget title task (772-817)
writes no job status and no message row, so it contributes no action. -/
/-- The writes of the detached execution, in program order:
`markJobProcessing`, the R2 `put` of the image bytes, the `messages`
INSERT (the artifact row), the session `current_x_url` UPDATE, and the
`updateJobStatus` terminal write. -/
inductive ExecAction where
  | markProcessing
  | imagePut
  | messageInsert
  | sessionPointerUpdate
  | statusWrite (st : JobStatus)
deriving DecidableEq, Repr

/-- Oracle for one detached execution: whether each suspending step
throws, and the adapter's resolved response when it resolves. -/
structure ExecEnv where
  markProcessingThrows : Bool
  refFetchThrows : Bool
  providerThrows : Bool
  providerResult : GenerationResponse
  imagePutThrows : Bool
  messageInsertThrows : Bool
  sessionUpdateThrows : Bool
  completeWriteThrows : Bool
deriving DecidableEq, Repr

/-- The `!result.imageBase64` falsy test: absent or empty base64 text. -/
def falsyImage : Option (List Char) → Bool
  | none => true
  | some s => s.isEmpty

/-- Trace of `generationPromise` under the oracle: straight-line
translation of `api.ts` 688-822 with every `throw` routed to the `catch`
block's closing `failed` write. -/
def execTrace (env : ExecEnv) (isEdit : Bool) : List ExecAction :=
  if env.markProcessingThrows then [.statusWrite .failed]
  else
    .markProcessing ::
      (if isEdit && env.refFetchThrows then [.statusWrite .failed]
       else if env.providerThrows then [.statusWrite .failed]
       else if !env.providerResult.success
           || falsyImage env.providerResult.imageBase64 then
         [.statusWrite .failed]
       else if env.imagePutThrows then [.statusWrite .failed]
       else
         .imagePut ::
           (if env.messageInsertThrows then [.statusWrite .failed]
            else
              .messageInsert ::
                (if env.sessionUpdateThrows then [.statusWrite .failed]
                 else
                   .sessionPointerUpdate ::
                     (if env.completeWriteThrows then [.statusWrite .failed]
                      else [.statusWrite .completed]))))

/-- The job status an action writes, if any. -/
def writesStatus : ExecAction → Option JobStatus
  | .markProcessing => some .processing
  | .statusWrite st => some st
  | _ => none

/-- The job's status once the detached execution has drained: the last
status written along the trace. -/
def finalStatus (t : List ExecAction) : Option JobStatus :=
  (t.filterMap writesStatus).getLast?

/-- Whether an action is a terminal status write. -/
def isTerminalWrite : ExecAction → Bool
  | .statusWrite st => st.isTerminal
  | _ => false

/-- Environment of the C5 counterexample: the generation succeeds and the
artifact row is inserted, but the session-pointer UPDATE throws, so the
catch block marks the job `failed`. -/
def postInsertFailEnv : ExecEnv :=
  { markProcessingThrows := false, refFetchThrows := false,
    providerThrows := false,
    providerResult := { success := true, imageBase64 := some ['Q', 'U', 'J', 'D'],
                        xUrl := none, error := none },
    imagePutThrows := false, messageInsertThrows := false,
    sessionUpdateThrows := true, completeWriteThrows := false }

/-- Environment of the C6/C7 counterexamples: the upload endpoint answers
500, the image endpoint would succeed. -/
def radioUploadFailEnv : RadioEnv :=
  { uploadAt := fun _ =>
      .ok { ok := false, status := 500, bodyText := "boom", jsonUrl := none,
            bodyBytes := [], xUrl := none },
    image :=
      .ok { ok := true, status := 200, bodyText := "", jsonUrl := none,
            bodyBytes := [1, 2, 3], xUrl := none } }

/-- An edit request whose single reference image is raw bytes, not a URL. -/
def rawEditRequest : GenerationRequest :=
  { prompt := "p", model := "flux2klein", width := 512, height := 512,
    steps := 4, guidance := 2, negativePrompt := none,
    images := some ["iVBORw0KGgo"] }

/-- Oracle where the adapter call itself is the step that throws. -/
def providerThrowEnv : ExecEnv :=
  { markProcessingThrows := false, refFetchThrows := false,
    providerThrows := true,
    providerResult := { success := false, imageBase64 := none, xUrl := none,
                        error := none },
    imagePutThrows := false, messageInsertThrows := false,
    sessionUpdateThrows := false, completeWriteThrows := false }

/-! ## Theorems -/

/-! ## Sorting lemmas for the `ORDER BY` embedding -/
theorem insertByCreated_perm (j : GenerationJob) (l : List GenerationJob) :
    (insertByCreated j l).Perm (j :: l) := by
  induction l with
  | nil => simp [insertByCreated]
  | cons k rest ih =>
      by_cases h : j.created_at ≤ k.created_at
      · simp [insertByCreated, h]
      · simp only [insertByCreated, if_neg h]
        exact (List.Perm.cons k ih).trans (List.Perm.swap j k rest)

theorem sortByCreated_perm (l : List GenerationJob) :
    (sortByCreated l).Perm l := by
  induction l with
  | nil => simp [sortByCreated]
  | cons j rest ih =>
      exact (insertByCreated_perm j (sortByCreated rest)).trans (ih.cons j)

theorem insertByCreated_sorted (j : GenerationJob) (l : List GenerationJob)
    (h : l.Pairwise createdLe) :
    (insertByCreated j l).Pairwise createdLe := by
  induction l with
  | nil => simp [insertByCreated, List.Pairwise]
  | cons k rest ih =>
      rcases List.pairwise_cons.mp h with ⟨hk, hrest⟩
      by_cases hle : j.created_at ≤ k.created_at
      · rw [insertByCreated, if_pos hle]
        refine List.pairwise_cons.mpr ⟨?_, h⟩
        intro b hb
        rcases List.mem_cons.mp hb with hb | hb
        · exact hb ▸ hle
        · exact le_trans hle (hk b hb)
      · rw [insertByCreated, if_neg hle]
        refine List.pairwise_cons.mpr ⟨?_, ih hrest⟩
        intro b hb
        have hmem : b ∈ j :: rest :=
          (insertByCreated_perm j rest).mem_iff.mp hb
        rcases List.mem_cons.mp hmem with hm | hm
        · exact hm ▸ le_of_not_le hle
        · exact hk b hm

theorem sortByCreated_sorted (l : List GenerationJob) :
    (sortByCreated l).Pairwise createdLe := by
  induction l with
  | nil => simp [sortByCreated, List.Pairwise]
  | cons j rest ih => exact insertByCreated_sorted j (sortByCreated rest) ih

/-! ## Claim theorems over the job store -/
/-- C1 counterexample: `updateJobStatus` moves a `completed` job back to
`pending` — the store neither rejects the call nor leaves the stored status
unchanged, refuting the claim that no transition leaves a terminal state;
and on an unknown id it is a silent no-op rather than a `NotFound` failure. -/
theorem updateJobStatus_resurrects_terminal_counterexample :
    sampleCompletedJob.status = .completed
    ∧ (updateJobStatus [sampleCompletedJob] "j1" .pending none 2).map
        (fun j => j.status) = [.pending]
    ∧ (markJobProcessing [sampleCompletedJob] "j1" 2).map
        (fun j => j.status) = [.processing]
    ∧ updateJobStatus [sampleCompletedJob] "missing" .failed none 2
        = [sampleCompletedJob] := by
  refine ⟨rfl, rfl, rfl, ?_⟩
  simp [updateJobStatus, sampleCompletedJob]

/-- C1 (amended): `updateJobStatus` and `markJobProcessing` update
unconditionally.  The row with the given id — terminal or not — gets the new
status (resp. `processing` with `attempts` incremented); every other row is
untouched; and when no row matches the id both calls leave the table exactly
as it was, reporting no error. -/
theorem jobStore_updates_unconditional (db : List GenerationJob)
    (jobId : String) (st : JobStatus) (em : Option String) (now : Nat) :
    ((updateJobStatus db jobId st em now).map (fun j => (j.id, j.status)) =
      db.map (fun j => (j.id, if j.id = jobId then st else j.status)))
    ∧ ((markJobProcessing db jobId now).map (fun j => (j.id, j.status, j.attempts)) =
      db.map (fun j => (j.id,
        (if j.id = jobId then JobStatus.processing else j.status),
        (if j.id = jobId then j.attempts + 1 else j.attempts))))
    ∧ ((∀ j ∈ db, j.id ≠ jobId) →
        updateJobStatus db jobId st em now = db
        ∧ markJobProcessing db jobId now = db) := by
  refine ⟨?_, ?_, ?_⟩
  · simp only [updateJobStatus, List.map_map]
    refine List.map_congr_left (fun j _ => ?_)
    by_cases h : j.id = jobId <;> simp [h]
  · simp only [markJobProcessing, List.map_map]
    refine List.map_congr_left (fun j _ => ?_)
    by_cases h : j.id = jobId <;> simp [h]
  · intro hnone
    constructor
    · simp only [updateJobStatus]
      refine List.map_congr_left (fun j hj => ?_) |>.trans (List.map_id db)
      simp [hnone j hj]
    · simp only [markJobProcessing]
      refine List.map_congr_left (fun j hj => ?_) |>.trans (List.map_id db)
      simp [hnone j hj]

/-- Witness for the amended C1 theorem at a concrete store. -/
theorem jobStore_updates_unconditional_witness :
    ((updateJobStatus [sampleCompletedJob, samplePendingJob] "j1" .pending none 2).map
        (fun j => (j.id, j.status)) =
      [sampleCompletedJob, samplePendingJob].map
        (fun j => (j.id, if j.id = "j1" then JobStatus.pending else j.status)))
    ∧ ((markJobProcessing [sampleCompletedJob, samplePendingJob] "j1" 2).map
        (fun j => (j.id, j.status, j.attempts)) =
      [sampleCompletedJob, samplePendingJob].map
        (fun j => (j.id,
          (if j.id = "j1" then JobStatus.processing else j.status),
          (if j.id = "j1" then j.attempts + 1 else j.attempts))))
    ∧ ((∀ j ∈ [sampleCompletedJob, samplePendingJob], j.id ≠ "j1") →
        updateJobStatus [sampleCompletedJob, samplePendingJob] "j1" .pending none 2
          = [sampleCompletedJob, samplePendingJob]
        ∧ markJobProcessing [sampleCompletedJob, samplePendingJob] "j1" 2
          = [sampleCompletedJob, samplePendingJob]) :=
  jobStore_updates_unconditional [sampleCompletedJob, samplePendingJob] "j1"
    .pending none 2

/-- C8: the pending-job queries return exactly the rows of the given session
(resp. owner) whose status is `pending` or `processing`, as a permutation of
the filtered table, sorted ascending by `created_at`. -/
theorem listPending_exact_sorted (db : List GenerationJob)
    (sessionId userId : String) :
    (getSessionPendingJobs db sessionId).Perm
        (db.filter (sessionPendingPred sessionId))
    ∧ (getSessionPendingJobs db sessionId).Pairwise createdLe
    ∧ (∀ j, j ∈ getSessionPendingJobs db sessionId ↔
        j ∈ db ∧ j.session_id = sessionId
          ∧ (j.status = .pending ∨ j.status = .processing))
    ∧ (getPendingJobs db userId).Perm (db.filter (userPendingPred userId))
    ∧ (getPendingJobs db userId).Pairwise createdLe
    ∧ (∀ j, j ∈ getPendingJobs db userId ↔
        j ∈ db ∧ j.user_id = userId
          ∧ (j.status = .pending ∨ j.status = .processing)) := by
  refine ⟨sortByCreated_perm _, sortByCreated_sorted _, ?_,
    sortByCreated_perm _, sortByCreated_sorted _, ?_⟩
  · intro j
    rw [getSessionPendingJobs, (sortByCreated_perm _).mem_iff, List.mem_filter]
    simp [sessionPendingPred, and_assoc]
  · intro j
    rw [getPendingJobs, (sortByCreated_perm _).mem_iff, List.mem_filter]
    simp [userPendingPred, and_assoc]

/-- C10: the polling route is owner-scoped: it answers 404 exactly when the
id resolves to no job or to a job of a different user, and any job (with or
without joined message) it returns is the stored row for that id, owned by
the caller; the joined message is looked up by the job's `message_id` and
only for `completed` jobs. -/
theorem jobPolling_owner_scoped (db : List GenerationJob)
    (messages : List Message) (userId jobId : String) :
    (getJobRoute db messages userId jobId = .notFound ↔
      ∀ j, getJob db jobId = some j → j.user_id ≠ userId)
    ∧ (∀ j, getJobRoute db messages userId jobId = .jobOnly j →
        getJob db jobId = some j ∧ j.user_id = userId ∧ j.status ≠ .completed)
    ∧ (∀ j m, getJobRoute db messages userId jobId = .jobWithMessage j m →
        getJob db jobId = some j ∧ j.user_id = userId ∧ j.status = .completed
          ∧ m = messages.find? (fun x => x.id = j.message_id)) := by
  unfold getJobRoute
  rcases hj : getJob db jobId with _ | job
  · refine ⟨⟨fun _ j h => by simp [hj] at h, fun _ => rfl⟩, ?_, ?_⟩
    · intro j h; cases h
    · intro j m h; cases h
  · dsimp only
    by_cases howner : job.user_id ≠ userId
    · rw [if_pos howner]
      refine ⟨⟨fun _ j h => ?_, fun _ => rfl⟩, ?_, ?_⟩
      · cases h; exact howner
      · intro j h; cases h
      · intro j m h; cases h
    · rw [if_neg howner]
      push_neg at howner
      by_cases hc : job.status = .completed
      · rw [if_pos hc]
        refine ⟨⟨fun h => JobStatusResponse.noConfusion h,
          fun hall => absurd howner (hall job rfl)⟩,
          ?_, ?_⟩
        · intro j h; cases h
        · intro j m h
          cases h
          exact ⟨rfl, howner, hc, rfl⟩
      · rw [if_neg hc]
        refine ⟨⟨fun h => JobStatusResponse.noConfusion h,
          fun hall => absurd howner (hall job rfl)⟩,
          ?_, ?_⟩
        · intro j h
          cases h
          exact ⟨rfl, howner, hc⟩
        · intro j m h; cases h

/-- Witness for C10 at a concrete store: a completed job polled by its owner
returns the job and its message; polled by someone else it is 404. -/
theorem jobPolling_owner_scoped_witness :
    (getJobRoute [sampleCompletedJob] [] "intruder" "j1" = .notFound ↔
      ∀ j, getJob [sampleCompletedJob] "j1" = some j → j.user_id ≠ "intruder")
    ∧ (∀ j, getJobRoute [sampleCompletedJob] [] "intruder" "j1" = .jobOnly j →
        getJob [sampleCompletedJob] "j1" = some j ∧ j.user_id = "intruder"
          ∧ j.status ≠ .completed)
    ∧ (∀ j m, getJobRoute [sampleCompletedJob] [] "intruder" "j1"
          = .jobWithMessage j m →
        getJob [sampleCompletedJob] "j1" = some j ∧ j.user_id = "intruder"
          ∧ j.status = .completed
          ∧ m = List.find? (fun x => x.id = j.message_id) []) :=
  jobPolling_owner_scoped [sampleCompletedJob] [] "intruder" "j1"

/-- C3: the three validations of the generate route happen synchronously
before any persistence: each 4xx result is characterised exactly by its
failed check, and whenever the result is not `accepted` the job table after
the call is the table before it (the only write of the synchronous phase is
the `createJob` INSERT, which runs after all three checks). -/
theorem submission_validates_before_persistence
    (registry : List (String × ModelMetadata)) (sessions : List SessionRow)
    (prefs : List (String × Option String)) (jobs : List GenerationJob)
    (userId sessionId : String) (body : GenerateBody) (messageId : String)
    (now : Nat) :
    ((¬ ∃ job, (submitGenerate registry sessions prefs jobs userId sessionId
        body messageId now).1 = .accepted job) →
      (submitGenerate registry sessions prefs jobs userId sessionId
        body messageId now).2 = jobs)
    ∧ ((submitGenerate registry sessions prefs jobs userId sessionId
        body messageId now).1 = .unknownModel ↔
      (sessions.find? fun s => s.id = sessionId && s.user_id = userId).isSome
        ∧ getModelMetadataIn registry body.model = none)
    ∧ ((submitGenerate registry sessions prefs jobs userId sessionId
        body messageId now).1 = .noProvider ↔
      (sessions.find? fun s => s.id = sessionId && s.user_id = userId).isSome
        ∧ (getModelMetadataIn registry body.model).isSome
        ∧ getProviderForModel body.model = none)
    ∧ ((submitGenerate registry sessions prefs jobs userId sessionId
        body messageId now).1 = .apiKeyRequired ↔
      (sessions.find? fun s => s.id = sessionId && s.user_id = userId).isSome
        ∧ (getModelMetadataIn registry body.model).isSome
        ∧ (getProviderForModel body.model).isSome
        ∧ modelRequiresApiKeyIn registry body.model = true
        ∧ apiKeyUsable prefs userId = false) := by
  rcases hs : sessions.find? fun s => s.id = sessionId && s.user_id = userId
    with _ | s
  · simp [submitGenerate, hs]
  · rcases hm : getModelMetadataIn registry body.model with _ | meta
    · simp [submitGenerate, hs, hm]
    · rcases hp : getProviderForModel body.model with _ | prov
      · simp [submitGenerate, hs, hm, hp]
      · by_cases hk : (modelRequiresApiKeyIn registry body.model
            && !apiKeyUsable prefs userId) = true
        · simp only [Bool.and_eq_true, Bool.not_eq_true'] at hk
          simp [submitGenerate, hs, hm, hp, hk, createJob]
        · have hc : (modelRequiresApiKeyIn registry body.model
              && !apiKeyUsable prefs userId) = false :=
            Bool.eq_false_iff.mpr hk
          simp only [submitGenerate, hs, hm, hp, hc, Bool.false_eq_true,
            if_false, createJob]
          refine ⟨fun h => absurd ⟨_, rfl⟩ h, by simp [hm], by simp, ?_⟩
          constructor
          · intro h; exact GenerateResult.noConfusion h
          · rintro ⟨-, -, -, hreq, husable⟩
            rw [hreq, husable] at hc
            simp at hc

/-- C4 counterexample: against a registry whose model has
`supportsEditing:false`, a submission with a non-empty reference-image list
is not rejected — the handler accepts it and inserts a job record, because
the capability flags are never consulted. -/
theorem editing_capability_unchecked_counterexample :
    (getModelMetadataIn nonEditingRegistry editBody.model).map
        (fun m => m.capabilities.supportsEditing) = some false
    ∧ editBody.images = some ["images/s1/prev.png"]
    ∧ (submitGenerate nonEditingRegistry [⟨"s1", "u1"⟩] [] [] "u1" "s1"
        editBody "m1" 7).1
      = .accepted
          { id := "m1", session_id := "s1", message_id := "m1", user_id := "u1",
            status := .pending, model := "cf-flux-dev", provider := "cloudflare",
            prompt := "make it night",
            params := { width := 512, height := 512, steps := 4, guidance := 2,
                        negativePrompt := none,
                        images := some ["images/s1/prev.png"] },
            error_message := none, attempts := 0, created_at := 7,
            updated_at := 7, completed_at := none }
    ∧ (submitGenerate nonEditingRegistry [⟨"s1", "u1"⟩] [] [] "u1" "s1"
        editBody "m1" 7).2.length = 1 := by
  refine ⟨rfl, rfl, rfl, rfl⟩

/-- C4 (amended): the generate route never consults the registry's
capability flags.  Every descriptor of the shipped `MODEL_REGISTRY` has
`supportsEditing = true`, so the rejection scenario cannot arise there; and
for any registry in which the model resolves to a descriptor with
`supportsEditing = false`, a submission with a non-empty reference-image
list that passes the model/provider/credential checks is accepted and a job
record is inserted. -/
theorem editing_capability_never_consulted
    (registry : List (String × ModelMetadata)) (sessions : List SessionRow)
    (prefs : List (String × Option String)) (jobs : List GenerationJob)
    (userId sessionId : String) (body : GenerateBody) (messageId : String)
    (now : Nat) (meta : ModelMetadata)
    (hsess : (sessions.find? fun s => s.id = sessionId && s.user_id = userId).isSome)
    (hmeta : getModelMetadataIn registry body.model = some meta)
    (hedit : meta.capabilities.supportsEditing = false)
    (hprov : (getProviderForModel body.model).isSome)
    (hkey : modelRequiresApiKeyIn registry body.model = true →
      apiKeyUsable prefs userId = true)
    (himgs : body.images.getD [] ≠ []) :
    (∀ e ∈ MODEL_REGISTRY, e.2.capabilities.supportsEditing = true)
    ∧ ∃ job, (submitGenerate registry sessions prefs jobs userId sessionId
          body messageId now).1 = .accepted job
        ∧ (submitGenerate registry sessions prefs jobs userId sessionId
          body messageId now).2 = jobs ++ [job]
        ∧ job.params.images = body.images := by
  constructor
  · decide
  · rcases Option.isSome_iff_exists.mp hsess with ⟨s, hs⟩
    rcases Option.isSome_iff_exists.mp hprov with ⟨p, hp⟩
    have hc : (modelRequiresApiKeyIn registry body.model
        && !apiKeyUsable prefs userId) = false := by
      rcases hb : modelRequiresApiKeyIn registry body.model with _ | _
      · simp
      · simp [hkey hb]
    refine ⟨{ id := messageId, session_id := sessionId,
              message_id := messageId, user_id := userId, status := .pending,
              model := body.model, provider := meta.provider,
              prompt := body.prompt,
              params := { width := body.width, height := body.height,
                          steps := body.steps, guidance := body.guidance,
                          negativePrompt := body.negativePrompt,
                          images := body.images },
              error_message := none, attempts := 0, created_at := now,
              updated_at := now, completed_at := none }, ?_, ?_, rfl⟩ <;>
      simp [submitGenerate, hs, hmeta, hp, hc, createJob]

/-- Witness for the amended C4 theorem at the concrete non-editing registry
and one-reference-image submission. -/
theorem editing_capability_never_consulted_witness :
    (∀ e ∈ MODEL_REGISTRY, e.2.capabilities.supportsEditing = true)
    ∧ ∃ job, (submitGenerate nonEditingRegistry [⟨"s1", "u1"⟩] [] [] "u1" "s1"
          editBody "m1" 7).1 = .accepted job
        ∧ (submitGenerate nonEditingRegistry [⟨"s1", "u1"⟩] [] [] "u1" "s1"
          editBody "m1" 7).2 = [] ++ [job]
        ∧ job.params.images = editBody.images :=
  editing_capability_never_consulted nonEditingRegistry [⟨"s1", "u1"⟩] [] []
    "u1" "s1" editBody "m1" 7
    { id := "cf-flux-dev", name := "CF Flux Dev", provider := "cloudflare",
      providerIcon := "cloud", cfModelId := some "@cf/black-forest-labs/flux-2-dev",
      capabilities := { supportsEditing := false, maxWidth := 1024, maxHeight := 1024 } }
    (by decide) (by decide) (by decide) (by decide) (by decide) (by decide)

theorem chunkedFromCharCode_bounded (n : Nat) :
    ∀ bytes : List Nat, bytes.length ≤ n → chunkedFromCharCode bytes = bytes := by
  induction n with
  | zero =>
      intro bytes h
      have hb : bytes = [] := List.eq_nil_of_length_eq_zero (Nat.le_zero.mp h)
      rw [chunkedFromCharCode, dif_pos hb, hb]
  | succ n ih =>
      intro bytes h
      by_cases hb : bytes = []
      · rw [chunkedFromCharCode, dif_pos hb, hb]
      · rw [chunkedFromCharCode, dif_neg hb]
        have hpos : 0 < bytes.length := List.length_pos.mpr hb
        rw [ih (bytes.drop 8192) (by simp only [List.length_drop]; omega)]
        exact List.take_append_drop 8192 bytes

/-- The chunked `String.fromCharCode` accumulation reassembles exactly the
input bytes, across any number of 8192-byte windows. -/
theorem chunkedFromCharCode_eq (bytes : List Nat) :
    chunkedFromCharCode bytes = bytes :=
  chunkedFromCharCode_bounded bytes.length bytes le_rfl

theorem b64val_b64enc : ∀ v < 64, b64val (b64enc v) = v := by decide

theorem b64enc_ne_pad : ∀ v < 64, b64enc v ≠ '=' := by decide

/-- Base64 with padding round-trips over bytes. -/
theorem atob_btoa (l : List Nat) (h : ∀ b ∈ l, b < 256) :
    atob (btoa l) = l := by
  induction l using btoa.induct with
  | case1 => rfl
  | case2 b1 =>
      have h1 : b1 < 256 := h b1 (by simp)
      rw [btoa, atob]
      rw [List.filter_cons_of_pos (by
        simpa using b64enc_ne_pad (b1 / 4) (by omega))]
      rw [List.filter_cons_of_pos (by
        simpa using b64enc_ne_pad (b1 % 4 * 16) (by omega))]
      rw [List.filter_cons_of_neg (by simp), List.filter_cons_of_neg (by simp)]
      rw [List.filter_nil, decode4]
      rw [b64val_b64enc (b1 / 4) (by omega), b64val_b64enc (b1 % 4 * 16) (by omega)]
      have : b1 / 4 * 4 + b1 % 4 * 16 / 16 = b1 := by omega
      rw [this]
  | case3 b1 b2 =>
      have h1 : b1 < 256 := h b1 (by simp)
      have h2 : b2 < 256 := h b2 (by simp)
      rw [btoa, atob]
      rw [List.filter_cons_of_pos (by
        simpa using b64enc_ne_pad (b1 / 4) (by omega))]
      rw [List.filter_cons_of_pos (by
        simpa using b64enc_ne_pad (b1 % 4 * 16 + b2 / 16) (by omega))]
      rw [List.filter_cons_of_pos (by
        simpa using b64enc_ne_pad (b2 % 16 * 4) (by omega))]
      rw [List.filter_cons_of_neg (by simp), List.filter_nil, decode4]
      rw [b64val_b64enc (b1 / 4) (by omega),
        b64val_b64enc (b1 % 4 * 16 + b2 / 16) (by omega),
        b64val_b64enc (b2 % 16 * 4) (by omega)]
      have e1 : b1 / 4 * 4 + (b1 % 4 * 16 + b2 / 16) / 16 = b1 := by omega
      have e2 : (b1 % 4 * 16 + b2 / 16) % 16 * 16 + b2 % 16 * 4 / 4 = b2 := by
        omega
      rw [e1, e2]
  | case4 b1 b2 b3 rest ih =>
      have h1 : b1 < 256 := h b1 (by simp)
      have h2 : b2 < 256 := h b2 (by simp)
      have h3 : b3 < 256 := h b3 (by simp)
      have hrest : ∀ b ∈ rest, b < 256 := fun b hb => h b (by simp [hb])
      rw [btoa, atob]
      rw [List.filter_cons_of_pos (by
        simpa using b64enc_ne_pad (b1 / 4) (by omega))]
      rw [List.filter_cons_of_pos (by
        simpa using b64enc_ne_pad (b1 % 4 * 16 + b2 / 16) (by omega))]
      rw [List.filter_cons_of_pos (by
        simpa using b64enc_ne_pad (b2 % 16 * 4 + b3 / 64) (by omega))]
      rw [List.filter_cons_of_pos (by
        simpa using b64enc_ne_pad (b3 % 64) (by omega))]
      rw [decode4]
      rw [b64val_b64enc (b1 / 4) (by omega),
        b64val_b64enc (b1 % 4 * 16 + b2 / 16) (by omega),
        b64val_b64enc (b2 % 16 * 4 + b3 / 64) (by omega),
        b64val_b64enc (b3 % 64) (by omega)]
      have e1 : b1 / 4 * 4 + (b1 % 4 * 16 + b2 / 16) / 16 = b1 := by omega
      have e2 : (b1 % 4 * 16 + b2 / 16) % 16 * 16
          + (b2 % 16 * 4 + b3 / 64) / 4 = b2 := by omega
      have e3 : (b2 % 16 * 4 + b3 / 64) % 4 * 64 + b3 % 64 = b3 := by omega
      rw [e1, e2, e3]
      have : atob (btoa rest) = rest := ih hrest
      rw [atob] at this
      rw [this]

/-- C9: the fixed 8192-byte-chunk `String.fromCharCode`-then-`btoa` encoder
followed by the `atob`-plus-`charCodeAt` decoder reproduces every byte
buffer exactly, whatever its size (0, 1, around the 8192 chunk boundary, or
megabytes — the statement is universal in the buffer). -/
theorem chunked_base64_roundtrip (bytes : List Nat)
    (h : ∀ b ∈ bytes, b < 256) :
    decodeBase64ToBytes (encodeChunkedBase64 bytes) = bytes := by
  rw [encodeChunkedBase64, chunkedFromCharCode_eq, decodeBase64ToBytes]
  exact atob_btoa bytes h

/-- Witness for C9 at a concrete buffer whose bytes exercise all three
padding shapes via its prefixes (length 5 = 3 + 2). -/
theorem chunked_base64_roundtrip_witness :
    decodeBase64ToBytes (encodeChunkedBase64 [0, 127, 255, 10, 33])
      = [0, 127, 255, 10, 33] :=
  chunked_base64_roundtrip [0, 127, 255, 10, 33] (by decide)

/-- C2: in every detached execution, a `completed` status write is
preceded by the binary-store write and by the artifact-row insert (both
occur in the strict prefix before it), and no terminal status write ever
precedes the artifact-row insert (no insert occurs after a terminal
write). -/
theorem terminal_write_after_artifact (env : ExecEnv) (isEdit : Bool) :
    (∀ i, i < (execTrace env isEdit).length →
        (execTrace env isEdit).get? i = some (.statusWrite .completed) →
          ExecAction.imagePut ∈ (execTrace env isEdit).take i
          ∧ ExecAction.messageInsert ∈ (execTrace env isEdit).take i)
    ∧ (∀ i, i < (execTrace env isEdit).length →
        ((execTrace env isEdit).get? i).any isTerminalWrite = true →
        ExecAction.messageInsert ∉ (execTrace env isEdit).drop (i + 1)) := by
  unfold execTrace
  split_ifs <;> decide

/-- C5 counterexample: a job can end `failed` although its artifact row
and image bytes were written — when a step after the artifact insert (here
the session-pointer update) throws. -/
theorem failed_job_with_artifact_counterexample :
    finalStatus (execTrace postInsertFailEnv false) = some .failed
    ∧ ExecAction.messageInsert ∈ execTrace postInsertFailEnv false
    ∧ ExecAction.imagePut ∈ execTrace postInsertFailEnv false := by
  decide

/-- C5 (amended): a `completed` job always has its image bytes and
artifact row written; a `failed` job has no artifact row unless the
failure struck after the artifact insert (the session-pointer update or
the `completed` status write itself threw), in which case the artifact
row survives under a `failed` status. -/
theorem completed_iff_artifact_modulo_post_insert_failure
    (env : ExecEnv) (isEdit : Bool) :
    (finalStatus (execTrace env isEdit) = some .completed →
      ExecAction.imagePut ∈ execTrace env isEdit
      ∧ ExecAction.messageInsert ∈ execTrace env isEdit)
    ∧ (finalStatus (execTrace env isEdit) = some .failed →
        ExecAction.messageInsert ∈ execTrace env isEdit →
        env.sessionUpdateThrows = true ∨ env.completeWriteThrows = true)
    ∧ (finalStatus (execTrace env isEdit) = some .failed →
        env.sessionUpdateThrows = false → env.completeWriteThrows = false →
        ExecAction.messageInsert ∉ execTrace env isEdit) := by
  unfold execTrace
  split_ifs <;> simp_all [finalStatus, writesStatus]

/-! ## Claim theorems over the adapters -/
/-- The reference-image loop calls only the upload endpoint, never the
image endpoint. -/
theorem processImages_no_image_call (env : RadioEnv) (imgs : List String)
    (k : Nat) : RadioCall.image ∉ (processImages env imgs k).2.1 := by
  induction imgs generalizing k with
  | nil => simp [processImages]
  | cons img rest ih =>
      by_cases hh : startsWithHttp img
      · simpa [processImages, hh] using ih k
      · rcases hu : uploadImageToRadio (env.uploadAt k) with e | u
        · simp [processImages, hh, hu]
        · simpa [processImages, hh, hu] using ih (k + 1)

/-- Reference images that are already URLs pass through without any
endpoint call. -/
theorem processImages_all_http (env : RadioEnv) (imgs : List String) (k : Nat)
    (h : ∀ img ∈ imgs, startsWithHttp img = true) :
    processImages env imgs k = (.ok imgs, [], k) := by
  induction imgs generalizing k with
  | nil => simp [processImages]
  | cons img rest ih =>
      have hh : startsWithHttp img = true := h img (by simp)
      have hrest : ∀ i ∈ rest, startsWithHttp i = true :=
        fun i hi => h i (by simp [hi])
      simp [processImages, hh, ih k hrest, Except.map]

/-- C6 counterexample: a 500 from the upload endpoint during the
reference-image step makes `RadioProvider.generate` throw (reject) instead
of resolving with a `{success:false}` outcome — the upload loop runs
outside the adapter's try/catch. -/
theorem radio_generate_throws_on_upload_counterexample :
    (radioGenerate radioUploadFailEnv rawEditRequest
        { apiKey := some "k", ai := false }).1
      = .error "Upload failed: 500 - boom" := by
  rfl

/-- C6 (amended): the Cloudflare adapter never throws, and the radio
adapter maps a non-success image-endpoint response (and any image-call
fault) to a `{success:false, error}` outcome whenever no raw-bytes upload
is needed; the only way `radioGenerate` throws is a failure of the
reference-image upload step. -/
theorem adapters_resolve_upstream_failures (cfenv : CfEnv) (env : RadioEnv)
    (request : GenerationRequest) (context : ProviderContext) :
    (∃ resp, cloudflareGenerate cfenv request context = .ok resp)
    ∧ ((∀ img ∈ request.images.getD [], startsWithHttp img = true) →
        ∃ resp, (radioGenerate env request context).1 = .ok resp)
    ∧ (∀ k r, context.apiKey = some k →
        (∀ img ∈ request.images.getD [], startsWithHttp img = true) →
        env.image = .ok r → r.ok = false →
        (radioGenerate env request context).1
          = .ok { success := false, imageBase64 := none, xUrl := none,
                  error := some ("API error: " ++ toString r.status
                    ++ " - " ++ r.bodyText) })
    ∧ (∀ e, (radioGenerate env request context).1 = .error e →
        ∃ imgs, request.images = some imgs
          ∧ (processImages env imgs 0).1 = .error e) := by
  refine ⟨?_, ?_, ?_, ?_⟩
  · rcases hai : context.ai with _ | _
    · simp [cloudflareGenerate, hai]
    · rcases hm : (getModelMetadata request.model).bind (fun m => m.cfModelId)
        with _ | cfid
      · simp [cloudflareGenerate, hai, hm]
      · rcases hr : cfenv.run with e | img
        · simp [cloudflareGenerate, hai, hm, hr]
        · rcases img with _ | img
          · simp [cloudflareGenerate, hai, hm, hr]
          · simp [cloudflareGenerate, hai, hm, hr]
  · intro hhttp
    rcases hkey : context.apiKey with _ | k
    · simp [radioGenerate, hkey]
    · have hup := processImages_all_http env (request.images.getD []) 0 hhttp
      by_cases hE : (request.images.getD []).isEmpty <;>
        rcases himg : env.image with e | r
      · simp [radioGenerate, hkey, hE, himg]
      · by_cases hok : r.ok
        · simp [radioGenerate, hkey, hE, himg, hok]
        · simp [radioGenerate, hkey, hE, himg, hok]
      · simp [radioGenerate, hkey, hE, hup, himg]
      · by_cases hok : r.ok
        · simp [radioGenerate, hkey, hE, hup, himg, hok]
        · simp [radioGenerate, hkey, hE, hup, himg, hok]
  · intro k r hkey hhttp himg hok
    have hup := processImages_all_http env (request.images.getD []) 0 hhttp
    by_cases hE : (request.images.getD []).isEmpty
    · simp [radioGenerate, hkey, hE, himg, hok]
    · simp [radioGenerate, hkey, hE, hup, himg, hok]
  · intro e he
    rcases hkey : context.apiKey with _ | k
    · simp [radioGenerate, hkey] at he
    · by_cases hE : (request.images.getD []).isEmpty
      · rcases himg : env.image with e' | r
        · simp [radioGenerate, hkey, hE, himg] at he
        · by_cases hok : r.ok <;>
            simp [radioGenerate, hkey, hE, himg, hok] at he
      · rcases himgs : request.images with _ | imgs
        · rw [himgs] at hE; simp at hE
        · have hEb : imgs.isEmpty = false := by
            rw [himgs] at hE; simpa using hE
          rcases hpi : processImages env imgs 0 with ⟨res, calls, n⟩
          rcases res with e' | us
          · refine ⟨imgs, rfl, ?_⟩
            simp [radioGenerate, hkey, himgs, hEb, hpi] at he
            rw [hpi]
            simp [he]
          · rcases himg : env.image with e'' | r
            · simp [radioGenerate, hkey, himgs, hEb, hpi, himg] at he
            · by_cases hok : r.ok <;>
                simp [radioGenerate, hkey, himgs, hEb, hpi, himg, hok] at he

/-- C7: when the reference-image upload step fails, `radioGenerate`
rejects with that failure and the image endpoint is never called; and a
detached execution whose adapter call throws ends with the job `failed`,
no artifact row and no image write. -/
theorem upload_failure_aborts_unit (env : RadioEnv)
    (request : GenerationRequest) (context : ProviderContext)
    (eenv : ExecEnv) (isEdit : Bool) (e : String)
    (hkey : ∃ k, context.apiKey = some k)
    (hfail : (processImages env (request.images.getD []) 0).1 = .error e)
    (hnonempty : (request.images.getD []).isEmpty = false)
    (hmark : eenv.markProcessingThrows = false)
    (hfetch : eenv.refFetchThrows = false)
    (hthrow : eenv.providerThrows = true) :
    (radioGenerate env request context).1 = .error e
    ∧ RadioCall.image ∉ (radioGenerate env request context).2
    ∧ finalStatus (execTrace eenv isEdit) = some .failed
    ∧ ExecAction.messageInsert ∉ execTrace eenv isEdit
    ∧ ExecAction.imagePut ∉ execTrace eenv isEdit := by
  rcases hkey with ⟨k, hk⟩
  rcases hpi : processImages env (request.images.getD []) 0 with ⟨res, calls, n⟩
  have hres : res = .error e := by rw [hpi] at hfail; exact hfail
  subst hres
  have hgen : radioGenerate env request context = (.error e, calls) := by
    simp [radioGenerate, hk, hnonempty, hpi]
  have hcalls : RadioCall.image ∉ calls := by
    have := processImages_no_image_call env (request.images.getD []) 0
    rw [hpi] at this
    exact this
  refine ⟨by rw [hgen], by rw [hgen]; exact hcalls, ?_, ?_, ?_⟩ <;>
    simp [execTrace, hmark, hfetch, hthrow, finalStatus, writesStatus]

/-- Witness for C7 at the concrete failing-upload environment. -/
theorem upload_failure_aborts_unit_witness :
    (radioGenerate radioUploadFailEnv rawEditRequest
        { apiKey := some "k", ai := false }).1
      = .error "Upload failed: 500 - boom"
    ∧ RadioCall.image ∉ (radioGenerate radioUploadFailEnv rawEditRequest
        { apiKey := some "k", ai := false }).2
    ∧ finalStatus (execTrace providerThrowEnv true) = some .failed
    ∧ ExecAction.messageInsert ∉ execTrace providerThrowEnv true
    ∧ ExecAction.imagePut ∉ execTrace providerThrowEnv true :=
  upload_failure_aborts_unit radioUploadFailEnv rawEditRequest
    { apiKey := some "k", ai := false } providerThrowEnv true
    "Upload failed: 500 - boom" ⟨"k", rfl⟩ rfl rfl rfl rfl rfl

end ImgChat
